import Mathlib

/-
Verification of the CreditBridge frontend core: the profile-aware
normalization pipeline (DynamicFormPage.handleSubmit), the auth state
machine (AuthPage.handleSubmit), and the workflow guard (PageRouter).

Modelling conventions:
* JavaScript numbers are modelled as exact rationals (ℚ); the arithmetic
  in the claims (division, clamping, max) is exact at the inputs involved.
* A raw text form field that is fed to parseFloat is modelled as
  Option ℚ: `some q` means the string parses to the finite number q,
  `none` means parseFloat yields NaN (or a non-finite value), which is
  exactly the case where Number.isFinite is false in the source helper
  `num`.
* A JSON payload field that may be `undefined` (and is then omitted from
  the serialized request) is modelled as Option ℚ; `none` is absence.
* React state setters are modelled by a pure state-transition function on
  an explicit AppState record; the component-local error message is
  returned alongside the new state.
* The asynchronous scoring call `calculateScore(payload)` is a boundary
  call; its outcome is passed to the submission transition as an
  `Except String ScoreResult` parameter (error = rejected promise whose
  surfaced message is the carried string). The current calendar date
  (`new Date().toISOString().split("T")[0]`) is likewise a parameter.
-/

/-- Registered user, from app-context: email, password, display name. -/
structure User where
  email : String
  password : String
  userName : String
  deriving DecidableEq, Repr

/-- Raw form state read by DynamicFormPage.handleSubmit.  Numeric text
fields are the parseFloat outcome (`none` = NaN / non-finite); free-text
fields not sent to scoring (fullName, universityName, ...) are omitted
because the normalizer never reads them. -/
structure FormData where
  profileType : String
  monthlyIncome : Option ℚ
  incomeStability : Option ℚ
  savingsBalance : Option ℚ
  monthsActive : Option ℚ
  gpa : Option ℚ
  attendanceRate : Option ℚ
  platformRating : Option ℚ
  avgWeeklyHours : Option ℚ
  businessYears : Option ℚ
  avgDailyRevenue : Option ℚ
  landSize : Option ℚ
  subsidyAmount : Option ℚ
  seasonalityIndex : Option ℚ
  deriving DecidableEq, Repr

/-- Canonical scoring request built in DynamicFormPage.handleSubmit.
Fields set to `undefined` in the source payload are `none` here
(absent from the serialized request). -/
structure ScoreRequest where
  profile_type : String
  monthly_income : ℚ
  income_variance : ℚ
  savings_balance : ℚ
  months_active : ℚ
  total_credits : ℚ
  total_debits : ℚ
  total_transactions : ℚ
  avg_credit_amount : ℚ
  avg_debit_amount : ℚ
  recurring_ratio : ℚ
  gpa : Option ℚ
  attendance_rate : Option ℚ
  platform_rating : Option ℚ
  avg_weekly_hours : Option ℚ
  business_years : Option ℚ
  avg_daily_revenue : Option ℚ
  land_size_acres : Option ℚ
  subsidy_amount : Option ℚ
  seasonality_index : Option ℚ
  deriving DecidableEq, Repr

/-- Response of the external scoring service (calculateScore result). -/
structure ScoreResult where
  alternative_credit_score : ℚ
  risk_band : String
  top_factors : List String
  deriving DecidableEq, Repr

/-- One entry of the score history (date string, score, risk band). -/
structure ScoreHistoryEntry where
  date : String
  score : ℚ
  riskBand : String
  deriving DecidableEq, Repr

/-- Session state held in app-context and read or written by the
components under verification. -/
structure AppState where
  currentPage : String
  isLoggedIn : Bool
  userName : String
  users : List User
  formData : FormData
  creditScore : Option ℚ
  riskBand : Option String
  topFactors : List String
  scoreHistory : List ScoreHistoryEntry
  deriving DecidableEq, Repr

/-- Source helper `num`: parseFloat the field, return the fallback when
the result is not finite. -/
def num (v : Option ℚ) (fallback : ℚ) : ℚ :=
  v.getD fallback

/-- Source helper `clamp(value, min, max) = Math.max(min, Math.min(max, value))`. -/
def clamp (value lo hi : ℚ) : ℚ :=
  max lo (min hi value)

/-- Source `profileMap` lookup with the `?? "salaried"` default: maps the
frontend profile identifier to the API profile_type. -/
def profileMap (t : String) : String :=
  if t = "gig-worker" then "gig"
  else if t = "student" then "student"
  else if t = "shopkeeper" then "shopkeeper"
  else if t = "rural" then "rural"
  else if t = "salaried" then "salaried"
  else "salaried"

/-- Payload construction of DynamicFormPage.handleSubmit, lines 226-277 of
the source: profile mapping, numeric parsing with fallbacks, clamping,
and profile-conditional inclusion (`undefined` = `none`). -/
def DynamicFormPage.payload (fd : FormData) : ScoreRequest :=
  let profile := profileMap fd.profileType
  let stability := clamp (num fd.incomeStability (1/2)) (1/100) 1
  let income_variance := max 0 (1 / stability - 1)
  let gpa := clamp (num fd.gpa 0 / 10 * 4) 0 4
  let attendance_rate := clamp (num fd.attendanceRate 0 / 100) 0 1
  let platform_rating := clamp (num fd.platformRating 0) 0 5
  let seasonality_index := clamp (num fd.seasonalityIndex 0) 0 1
  { profile_type := profile
    monthly_income := max 0 (num fd.monthlyIncome 0)
    income_variance := income_variance
    savings_balance := max 0 (num fd.savingsBalance 0)
    months_active := max 0 (num fd.monthsActive 0)
    total_credits := 0
    total_debits := 0
    total_transactions := 0
    avg_credit_amount := 0
    avg_debit_amount := 0
    recurring_ratio := 0
    gpa := if profile = "student" then some gpa else none
    attendance_rate := if profile = "student" then some attendance_rate else none
    platform_rating := if profile = "gig" then some platform_rating else none
    avg_weekly_hours := if profile = "gig" then some (max 0 (num fd.avgWeeklyHours 0)) else none
    business_years := if profile = "shopkeeper" then some (max 0 (num fd.businessYears 0)) else none
    avg_daily_revenue := if profile = "shopkeeper" then some (max 0 (num fd.avgDailyRevenue 0)) else none
    land_size_acres := if profile = "rural" then some (max 0 (num fd.landSize 0)) else none
    subsidy_amount := if profile = "rural" then some (max 0 (num fd.subsidyAmount 0)) else none
    seasonality_index := if profile = "rural" then some seasonality_index else none }

/-- Try/catch part of DynamicFormPage.handleSubmit (lines 279-298): on a
successful scoring call, write creditScore, riskBand, topFactors, prepend
a history entry dated `today`, and navigate to the dashboard; on failure
set the error message and leave all session state untouched.  Returns the
new state and the component error message. -/
def DynamicFormPage.handleSubmit (s : AppState)
    (result : Except String ScoreResult) (today : String) :
    AppState × Option String :=
  match result with
  | Except.ok r =>
      ({ s with
          creditScore := some r.alternative_credit_score
          riskBand := some r.risk_band
          topFactors := r.top_factors
          scoreHistory :=
            { date := today
              score := r.alternative_credit_score
              riskBand := r.risk_band } :: s.scoreHistory
          currentPage := "dashboard" }, none)
  | Except.error msg => (s, some msg)

/-- Display name computed on sign-up (AuthPage, lines 74-78):
`email.split("@")[0] || "User"`, then first character upper-cased via
charAt(0).toUpperCase() + slice(1). -/
def capitalizeFirst (s : String) : String :=
  match s.data with
  | [] => ""
  | c :: rest => String.mk (Char.toUpper c :: rest)

/-- First segment of `email.split("@")`: the characters before the
first "@", the whole string when there is none. -/
def splitAtSign : List Char → List Char
  | [] => []
  | c :: rest => if c = '@' then [] else c :: splitAtSign rest

/-- Local part of the email with the "User" fallback, as in the source:
`const name = email.split("@")[0] || "User"`. -/
def jsLocalName (email : String) : String :=
  let p := String.mk (splitAtSign email.data)
  if p = "" then "User" else p

/-- Display name as the source computes it. -/
def jsDisplayName (email : String) : String :=
  capitalizeFirst (jsLocalName email)

/-- AuthPage.handleSubmit (lines 56-102): sign-up or sign-in transition.
Returns the new session state and the inline error message ("" = no
error, matching the cleared error state). -/
def AuthPage.handleSubmit (isSignUp : Bool) (email password : String)
    (s : AppState) : AppState × String :=
  if isSignUp then
    if email = "" ∨ password = "" then
      (s, "Please fill in all fields")
    else if s.users.any (fun u => u.email == email) then
      (s, "Email already registered. Please sign in instead.")
    else
      let newUser : User :=
        { email := email, password := password
          userName := jsDisplayName email }
      ({ s with
          users := s.users ++ [newUser]
          userName := newUser.userName
          isLoggedIn := true
          currentPage := "profile-select" }, "")
  else
    if email = "" ∨ password = "" then
      (s, "Please fill in all fields")
    else
      match s.users.find? (fun u => u.email == email && u.password == password) with
      | some u =>
          ({ s with
              userName := u.userName
              isLoggedIn := true
              currentPage := "dashboard" }, "")
      | none => (s, "Invalid email or password. Please check and try again.")

/-- Protected pages of the workflow guard (navbar.tsx PageRouter). -/
def PROTECTED_PAGES : List String :=
  ["profile-select", "form", "dashboard", "settings"]

/-- Redirect effect of PageRouter: the useEffect that rewrites
currentPage to "auth" when a protected page is current while logged out. -/
def PageRouter.redirect (s : AppState) : AppState :=
  if s.isLoggedIn = false ∧ s.currentPage ∈ PROTECTED_PAGES then
    { s with currentPage := "auth" }
  else s

/-- Page rendered by PageRouter for the current frame: the early return
of AuthPage while logged out on a protected page, then the switch over
currentPage with the landing page as default. -/
def PageRouter.render (s : AppState) : String :=
  if s.isLoggedIn = false ∧ s.currentPage ∈ PROTECTED_PAGES then "auth"
  else if s.currentPage = "auth" then "auth"
  else if s.currentPage = "profile-select" then "profile-select"
  else if s.currentPage = "form" then "form"
  else if s.currentPage = "dashboard" then "dashboard"
  else if s.currentPage = "settings" then "settings"
  else "landing"

/-- Empty form, for concrete scenarios. -/
def emptyFormData : FormData :=
  { profileType := ""
    monthlyIncome := none, incomeStability := none, savingsBalance := none
    monthsActive := none, gpa := none, attendanceRate := none
    platformRating := none, avgWeeklyHours := none, businessYears := none
    avgDailyRevenue := none, landSize := none, subsidyAmount := none
    seasonalityIndex := none }

/-- Fresh session state, for concrete scenarios. -/
def initialState : AppState :=
  { currentPage := "landing", isLoggedIn := false, userName := ""
    users := [], formData := emptyFormData, creditScore := none
    riskBand := none, topFactors := [], scoreHistory := [] }

/-- Scenario form of claim C3: student with monthlyIncome "25000",
incomeStability "0.8", gpa "8.5", attendanceRate "92". -/
def fdStudent : FormData :=
  { emptyFormData with
      profileType := "student"
      monthlyIncome := some 25000
      incomeStability := some (4/5)
      gpa := some (17/2)
      attendanceRate := some 92 }

/-- Gig-worker form for concrete runs. -/
def fdGig : FormData :=
  { emptyFormData with
      profileType := "gig-worker"
      platformRating := some (47/10)
      avgWeeklyHours := some 40 }

/-- C1 (counterexample): a non-numeric incomeStability input (parseFloat
NaN, here the empty field of emptyFormData) is replaced by the fallback
0.5, giving income_variance = 1; it is not clamped to 0.01, which would
give income_variance = 99. -/
theorem C1_counterexample :
    (DynamicFormPage.payload emptyFormData).income_variance = 1 ∧
    max (0:ℚ) (1 / clamp (1/100) (1/100) 1 - 1) = 99 ∧
    (DynamicFormPage.payload emptyFormData).income_variance ≠
      max (0:ℚ) (1 / clamp (1/100) (1/100) 1 - 1) := by
  have h1 : (DynamicFormPage.payload emptyFormData).income_variance = 1 := by
    show max (0:ℚ) (1 / max (1/100) (min 1 (1/2)) - 1) = 1
    norm_num
  have h2 : max (0:ℚ) (1 / clamp (1/100) (1/100) 1 - 1) = 99 := by
    show max (0:ℚ) (1 / max (1/100) (min 1 (1/100)) - 1) = 99
    norm_num
  refine ⟨h1, h2, ?_⟩
  rw [h1, h2]
  norm_num

/-- C1 (amended): for every FormData the payload satisfies
income_variance = max(0, 1/clamp(stability, 0.01, 1) - 1) where stability
is the parsed incomeStability with fallback 0.5; the result is always
nonnegative (hence finite, as an exact rational); every parsed value
q ≤ 0 is clamped up to 0.01 (variance 99); a non-numeric input falls back
to 0.5 (variance 1), not to 0.01. -/
theorem C1_income_variance (fd : FormData) :
    (DynamicFormPage.payload fd).income_variance
      = max 0 (1 / clamp (num fd.incomeStability (1/2)) (1/100) 1 - 1) ∧
    0 ≤ (DynamicFormPage.payload fd).income_variance ∧
    (∀ q : ℚ, fd.incomeStability = some q → q ≤ 0 →
      (DynamicFormPage.payload fd).income_variance = 99) ∧
    (fd.incomeStability = none →
      (DynamicFormPage.payload fd).income_variance = 1) := by
  refine ⟨rfl, le_max_left _ _, ?_, ?_⟩
  · intro q hq hq0
    show max 0 (1 / clamp (num fd.incomeStability (1/2)) (1/100) 1 - 1) = 99
    rw [hq]
    show max 0 (1 / max (1/100) (min 1 q) - 1) = 99
    have hmin : min (1:ℚ) q = q := min_eq_right (by linarith)
    have hmax : max (1/100 : ℚ) q = 1/100 := max_eq_left (by linarith)
    rw [hmin, hmax]
    norm_num
  · intro hnone
    show max 0 (1 / clamp (num fd.incomeStability (1/2)) (1/100) 1 - 1) = 1
    rw [hnone]
    show max (0:ℚ) (1 / max (1/100) (min 1 (1/2)) - 1) = 1
    norm_num

/-- C1 (witness): concrete run of C1_income_variance on the empty form,
discharging the non-numeric hypothesis. -/
theorem C1_income_variance_witness :
    (DynamicFormPage.payload emptyFormData).income_variance = 1 :=
  (C1_income_variance emptyFormData).2.2.2 rfl

/-- C2: for every FormData mapping to profile_type "gig" the payload
carries platform_rating and avg_weekly_hours and omits the seven fields
of the other groups; in general each optional field is present exactly
when the payload's profile_type matches its group (so "salaried"
populates none). -/
theorem C2_conditional_inclusion (fd : FormData) :
    ((DynamicFormPage.payload fd).profile_type = "gig" →
      ((DynamicFormPage.payload fd).platform_rating).isSome = true ∧
      ((DynamicFormPage.payload fd).avg_weekly_hours).isSome = true ∧
      (DynamicFormPage.payload fd).gpa = none ∧
      (DynamicFormPage.payload fd).attendance_rate = none ∧
      (DynamicFormPage.payload fd).business_years = none ∧
      (DynamicFormPage.payload fd).avg_daily_revenue = none ∧
      (DynamicFormPage.payload fd).land_size_acres = none ∧
      (DynamicFormPage.payload fd).subsidy_amount = none ∧
      (DynamicFormPage.payload fd).seasonality_index = none) ∧
    (((DynamicFormPage.payload fd).gpa).isSome = true ↔
      (DynamicFormPage.payload fd).profile_type = "student") ∧
    (((DynamicFormPage.payload fd).attendance_rate).isSome = true ↔
      (DynamicFormPage.payload fd).profile_type = "student") ∧
    (((DynamicFormPage.payload fd).platform_rating).isSome = true ↔
      (DynamicFormPage.payload fd).profile_type = "gig") ∧
    (((DynamicFormPage.payload fd).avg_weekly_hours).isSome = true ↔
      (DynamicFormPage.payload fd).profile_type = "gig") ∧
    (((DynamicFormPage.payload fd).business_years).isSome = true ↔
      (DynamicFormPage.payload fd).profile_type = "shopkeeper") ∧
    (((DynamicFormPage.payload fd).avg_daily_revenue).isSome = true ↔
      (DynamicFormPage.payload fd).profile_type = "shopkeeper") ∧
    (((DynamicFormPage.payload fd).land_size_acres).isSome = true ↔
      (DynamicFormPage.payload fd).profile_type = "rural") ∧
    (((DynamicFormPage.payload fd).subsidy_amount).isSome = true ↔
      (DynamicFormPage.payload fd).profile_type = "rural") ∧
    (((DynamicFormPage.payload fd).seasonality_index).isSome = true ↔
      (DynamicFormPage.payload fd).profile_type = "rural") := by
  have h5 : profileMap fd.profileType = "salaried" ∨
      profileMap fd.profileType = "student" ∨
      profileMap fd.profileType = "gig" ∨
      profileMap fd.profileType = "shopkeeper" ∨
      profileMap fd.profileType = "rural" := by
    unfold profileMap
    split_ifs <;> simp
  rcases h5 with h | h | h | h | h <;>
    simp [DynamicFormPage.payload, h]

/-- C2 (witness): concrete run on a gig-worker form. -/
theorem C2_conditional_inclusion_witness :
    ((DynamicFormPage.payload fdGig).platform_rating).isSome = true ∧
    ((DynamicFormPage.payload fdGig).avg_weekly_hours).isSome = true ∧
    (DynamicFormPage.payload fdGig).gpa = none ∧
    (DynamicFormPage.payload fdGig).attendance_rate = none ∧
    (DynamicFormPage.payload fdGig).business_years = none ∧
    (DynamicFormPage.payload fdGig).avg_daily_revenue = none ∧
    (DynamicFormPage.payload fdGig).land_size_acres = none ∧
    (DynamicFormPage.payload fdGig).subsidy_amount = none ∧
    (DynamicFormPage.payload fdGig).seasonality_index = none :=
  (C2_conditional_inclusion fdGig).1 rfl

/-- C3: the student scenario (monthlyIncome 25000, incomeStability 0.8,
gpa 8.5, attendanceRate 92) yields gpa 3.4 = 17/5, attendance_rate
0.92 = 23/25, income_variance 0.25 = 1/4, monthly_income 25000 and
profile_type "student". -/
theorem C3_student_scenario :
    (DynamicFormPage.payload fdStudent).gpa = some (17/5) ∧
    (DynamicFormPage.payload fdStudent).attendance_rate = some (23/25) ∧
    (DynamicFormPage.payload fdStudent).income_variance = 1/4 ∧
    (DynamicFormPage.payload fdStudent).monthly_income = 25000 ∧
    (DynamicFormPage.payload fdStudent).profile_type = "student" := by
  refine ⟨?_, ?_, ?_, ?_, rfl⟩ <;>
    simp [DynamicFormPage.payload, fdStudent, emptyFormData, num, clamp, profileMap] <;>
    norm_num

/-- C4: a failed scoring call leaves the whole session state unchanged
(in particular scoreHistory and its length, creditScore, riskBand,
topFactors, currentPage) and surfaces the error message; a successful
call updates creditScore, riskBand, topFactors and scoreHistory
together (atomically, in the same transition) and navigates to the
dashboard. -/
theorem C4_failure_leaves_state (s : AppState) (msg today : String) :
    (DynamicFormPage.handleSubmit s (Except.error msg) today).1 = s ∧
    ((DynamicFormPage.handleSubmit s (Except.error msg) today).1).scoreHistory.length
      = s.scoreHistory.length ∧
    ((DynamicFormPage.handleSubmit s (Except.error msg) today).1).currentPage
      = s.currentPage ∧
    (DynamicFormPage.handleSubmit s (Except.error msg) today).2 = some msg ∧
    ∀ r : ScoreResult, ∀ d : String,
      ((DynamicFormPage.handleSubmit s (Except.ok r) d).1).creditScore
          = some r.alternative_credit_score ∧
      ((DynamicFormPage.handleSubmit s (Except.ok r) d).1).riskBand
          = some r.risk_band ∧
      ((DynamicFormPage.handleSubmit s (Except.ok r) d).1).topFactors
          = r.top_factors ∧
      ((DynamicFormPage.handleSubmit s (Except.ok r) d).1).scoreHistory
          = { date := d, score := r.alternative_credit_score,
              riskBand := r.risk_band } :: s.scoreHistory ∧
      ((DynamicFormPage.handleSubmit s (Except.ok r) d).1).currentPage
          = "dashboard" :=
  ⟨rfl, rfl, rfl, rfl, fun _ _ => ⟨rfl, rfl, rfl, rfl, rfl⟩⟩

/-- C5: while logged out, a protected current page makes PageRouter
redirect to "auth" and render the auth page for that frame; more, the
rendered page while logged out is never a protected page. -/
theorem C5_guard (s : AppState) (h : s.isLoggedIn = false) :
    (s.currentPage ∈ PROTECTED_PAGES →
      PageRouter.render s = "auth" ∧
      (PageRouter.redirect s).currentPage = "auth") ∧
    PageRouter.render s ∉ PROTECTED_PAGES := by
  constructor
  · intro hp
    constructor
    · unfold PageRouter.render
      rw [if_pos ⟨h, hp⟩]
    · unfold PageRouter.redirect
      rw [if_pos ⟨h, hp⟩]
  · unfold PageRouter.render
    split_ifs with h1 h2 h3 h4 h5 h6 <;> simp_all [PROTECTED_PAGES]

/-- C5 (witness): navigating to the dashboard while logged out renders
the auth page and redirects currentPage to "auth". -/
theorem C5_guard_witness :
    PageRouter.render { initialState with currentPage := "dashboard" } = "auth" ∧
    (PageRouter.redirect { initialState with currentPage := "dashboard" }).currentPage
      = "auth" :=
  (C5_guard { initialState with currentPage := "dashboard" } rfl).1 (by decide)

/-- C7: every successful submission prepends exactly one history entry
(current date, score, risk band) at index 0 and keeps the previous
entries intact; two successive successful submissions from an empty
history give length 2 with the most recent entry at index 0. -/
theorem C7_history_prepend (s : AppState) (r1 r2 : ScoreResult) (d1 d2 : String) :
    ((DynamicFormPage.handleSubmit s (Except.ok r1) d1).1).scoreHistory
      = { date := d1, score := r1.alternative_credit_score,
          riskBand := r1.risk_band } :: s.scoreHistory ∧
    ((DynamicFormPage.handleSubmit
        (DynamicFormPage.handleSubmit s (Except.ok r1) d1).1
        (Except.ok r2) d2).1).scoreHistory
      = { date := d2, score := r2.alternative_credit_score,
          riskBand := r2.risk_band } ::
        { date := d1, score := r1.alternative_credit_score,
          riskBand := r1.risk_band } :: s.scoreHistory ∧
    (s.scoreHistory = [] →
      ((DynamicFormPage.handleSubmit
          (DynamicFormPage.handleSubmit s (Except.ok r1) d1).1
          (Except.ok r2) d2).1).scoreHistory.length = 2 ∧
      ((DynamicFormPage.handleSubmit
          (DynamicFormPage.handleSubmit s (Except.ok r1) d1).1
          (Except.ok r2) d2).1).scoreHistory[0]?
        = some { date := d2, score := r2.alternative_credit_score,
                 riskBand := r2.risk_band }) := by
  refine ⟨rfl, rfl, fun h => ⟨?_, rfl⟩⟩
  simp [DynamicFormPage.handleSubmit, h]

/-- Concrete scoring results for the history scenario. -/
def resultA : ScoreResult :=
  { alternative_credit_score := 720, risk_band := "Low", top_factors := [] }

/-- Second concrete scoring result for the history scenario. -/
def resultB : ScoreResult :=
  { alternative_credit_score := 650, risk_band := "Medium", top_factors := [] }

/-- C7 (witness): two successful submissions from the fresh session give
a history of length 2 with the second result at index 0. -/
theorem C7_history_prepend_witness :
    ((DynamicFormPage.handleSubmit
        (DynamicFormPage.handleSubmit initialState (Except.ok resultA) "2026-10-10").1
        (Except.ok resultB) "2026-10-11").1).scoreHistory.length = 2 ∧
    ((DynamicFormPage.handleSubmit
        (DynamicFormPage.handleSubmit initialState (Except.ok resultA) "2026-10-10").1
        (Except.ok resultB) "2026-10-11").1).scoreHistory[0]?
      = some { date := "2026-10-11", score := resultB.alternative_credit_score,
               riskBand := resultB.risk_band } :=
  (C7_history_prepend initialState resultA resultB "2026-10-10" "2026-10-11").2.2 rfl

/-- Character-wise lower-casing (toLowerCase on the relevant ASCII
range). -/
def lowerCase (s : String) : String :=
  String.mk (s.data.map Char.toLower)

/-- Display name as claim C6 words it: local part of the email,
lower-cased then first letter capitalized, with the "User" fallback for
an empty local part. -/
def specDisplayName (email : String) : String :=
  let p := String.mk (splitAtSign email.data)
  if p = "" then "User" else capitalizeFirst (lowerCase p)

/-- C6 (counterexample): signing up with email "aBc@x.com" stores the
display name "ABc" (first character upper-cased, rest untouched), while
the claimed lower-case-then-capitalize rule would give "Abc". -/
theorem C6_counterexample :
    ((AuthPage.handleSubmit true "aBc@x.com" "pw" initialState).1).users.map
        (fun u => u.userName) = ["ABc"] ∧
    specDisplayName "aBc@x.com" = "Abc" ∧
    ("ABc" : String) ≠ "Abc" := by
  refine ⟨by decide, by decide, by decide⟩

/-- Shared lemma: the successful sign-up branch, with the guards already
settled. -/
theorem AuthPage.signup_success_eq (s : AppState) (email password : String)
    (hep : ¬(email = "" ∨ password = ""))
    (hany : s.users.any (fun u => u.email == email) = false) :
    AuthPage.handleSubmit true email password s =
      ({ s with
          users := s.users ++
            [{ email := email, password := password,
               userName := jsDisplayName email }]
          userName := jsDisplayName email
          isLoggedIn := true
          currentPage := "profile-select" }, "") := by
  simp [AuthPage.handleSubmit, hep, hany]

/-- C6 (amended): a sign-up with non-empty email and password and a
fresh email appends exactly one user whose display name is the local
part of the email with its first character upper-cased and the rest
unchanged (literal "User" when the local part is empty), marks the
session logged in, and advances to profile-select. -/
theorem C6_signup_success (s : AppState) (email password : String)
    (he : email ≠ "") (hp : password ≠ "")
    (hd : ∀ u ∈ s.users, u.email ≠ email) :
    AuthPage.handleSubmit true email password s =
      ({ s with
          users := s.users ++
            [{ email := email, password := password,
               userName := jsDisplayName email }]
          userName := jsDisplayName email
          isLoggedIn := true
          currentPage := "profile-select" }, "") := by
  have h1 : ¬(email = "" ∨ password = "") := by
    rintro (h | h)
    exacts [he h, hp h]
  have h2 : s.users.any (fun u => u.email == email) = false := by
    rw [List.any_eq_false]
    intro u hu
    simpa using hd u hu
  exact AuthPage.signup_success_eq s email password h1 h2

/-- C6 (witness): concrete sign-up from the fresh session. -/
theorem C6_signup_success_witness :
    AuthPage.handleSubmit true "jane@x.com" "pw" initialState =
      ({ initialState with
          users := [{ email := "jane@x.com", password := "pw",
                      userName := jsDisplayName "jane@x.com" }]
          userName := jsDisplayName "jane@x.com"
          isLoggedIn := true
          currentPage := "profile-select" }, "") :=
  C6_signup_success initialState "jane@x.com" "pw" (by decide) (by decide)
    (by simp [initialState])

/-- Registered user for the duplicate and invalid-credential scenarios. -/
def userA : User := { email := "a@x.com", password := "pw", userName := "A" }

/-- Session state already holding userA. -/
def stateA : AppState := { initialState with users := [userA] }

/-- C8 (counterexample): with userA's email already registered, a
sign-up attempt for the same email but an empty password fails with the
missing-field condition, not the duplicate-email condition (the state is
still unchanged). -/
theorem C8_counterexample :
    stateA.users.any (fun u => u.email == "a@x.com") = true ∧
    AuthPage.handleSubmit true "a@x.com" "" stateA
      = (stateA, "Please fill in all fields") ∧
    ("Please fill in all fields" : String)
      ≠ "Email already registered. Please sign in instead." := by
  refine ⟨by decide, by decide, by decide⟩

/-- C8 (amended): a sign-up attempt with non-empty email and password
whose email is already registered fails with the duplicate-email
condition and leaves the whole state unchanged; moreover every sign-up
preserves the no-duplicate-emails invariant of the user set. -/
theorem C8_duplicate_signup (s : AppState) (email password : String)
    (he : email ≠ "") (hp : password ≠ "")
    (hd : ∃ u ∈ s.users, u.email = email) :
    AuthPage.handleSubmit true email password s
      = (s, "Email already registered. Please sign in instead.") ∧
    ∀ t : AppState, ∀ e p : String,
      (t.users.map (fun u => u.email)).Nodup →
      (((AuthPage.handleSubmit true e p t).1).users.map
        (fun u => u.email)).Nodup := by
  constructor
  · have h1 : ¬(email = "" ∨ password = "") := by
      rintro (h | h)
      exacts [he h, hp h]
    have h2 : s.users.any (fun u => u.email == email) = true := by
      rw [List.any_eq_true]
      obtain ⟨u, hu, hue⟩ := hd
      exact ⟨u, hu, by simp [hue]⟩
    simp [AuthPage.handleSubmit, h1, h2]
  · intro t e p hnd
    by_cases hep : e = "" ∨ p = ""
    · simpa [AuthPage.handleSubmit, hep] using hnd
    · by_cases hany : t.users.any (fun u => u.email == e) = true
      · simpa [AuthPage.handleSubmit, hep, hany] using hnd
      · have hany2 : t.users.any (fun u => u.email == e) = false :=
          Bool.eq_false_iff.mpr hany
        have hfa : ∀ u ∈ t.users, u.email ≠ e := by
          rw [List.any_eq_false] at hany2
          intro u hu
          simpa using hany2 u hu
        have hnotmem : e ∉ t.users.map (fun u => u.email) := by
          rw [List.mem_map]
          rintro ⟨u, hu, rfl⟩
          exact hfa u hu rfl
        rw [AuthPage.signup_success_eq t e p hep hany2]
        show ((t.users ++ [(⟨e, p, jsDisplayName e⟩ : User)]).map
            (fun u => u.email)).Nodup
        rw [List.map_append, List.nodup_append]
        refine ⟨hnd, List.nodup_singleton _, fun x hx hx2 => ?_⟩
        simp only [List.map_cons, List.map_nil, List.mem_singleton] at hx2
        subst hx2
        exact hnotmem hx

/-- C8 (witness): duplicate sign-up for userA's email with a non-empty
password fails with the duplicate-email message and no mutation. -/
theorem C8_duplicate_signup_witness :
    AuthPage.handleSubmit true "a@x.com" "pw2" stateA
      = (stateA, "Email already registered. Please sign in instead.") :=
  (C8_duplicate_signup stateA "a@x.com" "pw2" (by decide) (by decide)
    ⟨userA, by simp [stateA, initialState], rfl⟩).1

/-- Shared lemma: a sign-in with non-empty fields and no user holding
the exact (email, password) pair fails with the invalid-credentials
message and leaves the state unchanged. -/
theorem AuthPage.signin_no_match (s : AppState) (email password : String)
    (hep : ¬(email = "" ∨ password = ""))
    (h : ∀ u ∈ s.users, ¬(u.email = email ∧ u.password = password)) :
    AuthPage.handleSubmit false email password s
      = (s, "Invalid email or password. Please check and try again.") := by
  have hf : s.users.find? (fun u => u.email == email && u.password == password)
      = none := by
    rw [List.find?_eq_none]
    intro u hu
    simpa using h u hu
  simp [AuthPage.handleSubmit, hep, hf]

/-- C9: a sign-in with non-empty email and password and no exact
(email, password) match fails with the invalid-credentials message and
leaves the state unchanged; the surfaced message is identical across any
two user sets without a match (in particular whether or not some user
with that email exists), revealing nothing about email existence. -/
theorem C9_invalid_credentials (s1 s2 : AppState) (email password : String)
    (he : email ≠ "") (hp : password ≠ "")
    (h1 : ∀ u ∈ s1.users, ¬(u.email = email ∧ u.password = password))
    (h2 : ∀ u ∈ s2.users, ¬(u.email = email ∧ u.password = password)) :
    AuthPage.handleSubmit false email password s1
      = (s1, "Invalid email or password. Please check and try again.") ∧
    (AuthPage.handleSubmit false email password s1).2
      = (AuthPage.handleSubmit false email password s2).2 := by
  have hep : ¬(email = "" ∨ password = "") := by
    rintro (h | h)
    exacts [he h, hp h]
  refine ⟨AuthPage.signin_no_match s1 email password hep h1, ?_⟩
  rw [AuthPage.signin_no_match s1 email password hep h1,
    AuthPage.signin_no_match s2 email password hep h2]

/-- C9 (witness): wrong password for the registered email "a@x.com"
gives the same message as the same attempt against an empty user set. -/
theorem C9_invalid_credentials_witness :
    AuthPage.handleSubmit false "a@x.com" "bad" stateA
      = (stateA, "Invalid email or password. Please check and try again.") ∧
    (AuthPage.handleSubmit false "a@x.com" "bad" stateA).2
      = (AuthPage.handleSubmit false "a@x.com" "bad" initialState).2 :=
  C9_invalid_credentials stateA initialState "a@x.com" "bad"
    (by decide) (by decide) (by decide) (by decide)

/-- C10: a sign-in attempt with an empty email or password fails with
the missing-field message and leaves the state unchanged, and the
outcome message never depends on the user set (the guard runs before the
lookup). -/
theorem C10_empty_fields (s : AppState) (email password : String)
    (h : email = "" ∨ password = "") :
    AuthPage.handleSubmit false email password s
      = (s, "Please fill in all fields") ∧
    ∀ t : AppState, (AuthPage.handleSubmit false email password t).2
      = (AuthPage.handleSubmit false email password s).2 := by
  have hmain : ∀ t : AppState,
      AuthPage.handleSubmit false email password t
        = (t, "Please fill in all fields") := by
    intro t
    rcases h with h | h <;> subst h <;> simp [AuthPage.handleSubmit]
  exact ⟨hmain s, fun t => by rw [hmain t, hmain s]⟩

/-- C10 (witness): empty password against the populated user set. -/
theorem C10_empty_fields_witness :
    AuthPage.handleSubmit false "a@x.com" "" stateA
      = (stateA, "Please fill in all fields") :=
  (C10_empty_fields stateA "a@x.com" "" (Or.inr rfl)).1
